import Mathlib

/-!
Verification development for the fibgrid repository.

`Construction` embeds `src/fibgrid/construction.py`:
`compute_fib_grid` builds integer index arrays with `np.arange`, then fills
`lat`/`lon` arrays of size `2n+1` in a loop over the signed indices `-n..n`,
using numpy negative-index semantics (`a[i]` with `i < 0` reads `a[size+i]`).
`compute_fib_grid_wgs84` passes `points`/`gpi` through unchanged and maps an
external CRS transformer over the coordinate pairs.

`Realization` embeds the control flow of `src/fibgrid/realization.py`:
`read_grid_file` checks the cache, downloads on a miss (the URL-table lookup
can fail), and only afterwards validates `geodatum` and `sort_order`;
`FibGrid.__init__` maps a resolution to a point count before any I/O;
sorting applies one stored permutation to every array; `FibLandGrid` selects
the positions whose land flag is set.
-/

namespace Fibgrid

/-- `np.arange(a, b)` for integers: the list `a, a+1, ..., b-1` (empty when `b ≤ a`). -/
def arangeZ (a b : ℤ) : List ℤ :=
  (List.range (b - a).toNat).map (fun (k : ℕ) => a + (k : ℤ))

/-- `points = np.arange(-n, n + 1)` from `compute_fib_grid`. -/
def points (n : ℤ) : List ℤ :=
  arangeZ (-n) (n + 1)

/-- `gpi = np.arange(points.size)` from `compute_fib_grid`. -/
def gpi (n : ℤ) : List ℤ :=
  arangeZ 0 (points n).length

/-- `phi = (1.0 + np.sqrt(5)) / 2.0`. -/
noncomputable def phi : ℝ :=
  (1 + Real.sqrt 5) / 2

/-- `np.mod(x, y)` on reals: floor-based modulo `x - y * floor(x / y)`. -/
noncomputable def rmod (x y : ℝ) : ℝ :=
  x - y * (⌊x / y⌋ : ℝ)

/-- `np.arcsin((2 * i) / (2 * n + 1)) * 180.0 / np.pi` from the fill loop. -/
noncomputable def latOf (n i : ℤ) : ℝ :=
  Real.arcsin ((2 * (i : ℝ)) / (2 * (n : ℝ) + 1)) * 180 / Real.pi

/-- `np.mod(i, phi) * 360.0 / phi`: the raw longitude before wrapping. -/
noncomputable def rawLon (i : ℤ) : ℝ :=
  rmod (i : ℝ) phi * 360 / phi

/-- The two sequential wrap branches of the fill loop:
`if lon[i] < -180: lon[i] += 360` then `if lon[i] > 180: lon[i] -= 360`. -/
noncomputable def wrapLon (l : ℝ) : ℝ :=
  let l1 := if l < -180 then l + 360 else l
  if 180 < l1 then l1 - 360 else l1

/-- The final longitude stored by one loop iteration for signed index `i`. -/
noncomputable def lonOf (i : ℤ) : ℝ :=
  wrapLon (rawLon i)

/-- Numpy index semantics for `a[i]` on an array of size `size`:
a negative `i` addresses position `size + i`. -/
def pyIdx (size i : ℤ) : ℤ :=
  if i < 0 then size + i else i

/-- One array-fill pass: fold a list of signed indices over `Function.update`,
writing `some (val i)` at position `key i`; unwritten cells stay `none`
(`np.empty` leaves them uninitialized). -/
def updFold {β : Type} (key : ℤ → ℤ) (val : ℤ → β) (l : List ℤ)
    (g : ℤ → Option β) : ℤ → Option β :=
  l.foldl (fun f i => Function.update f (key i) (some (val i))) g

/-- The `lat` array produced by the fill loop of `compute_fib_grid n`. -/
noncomputable def latArr (n : ℤ) : ℤ → Option ℝ :=
  updFold (pyIdx ((points n).length : ℤ)) (latOf n) (points n) (fun _ => none)

/-- The `lon` array produced by the fill loop of `compute_fib_grid n`. -/
noncomputable def lonArr (n : ℤ) : ℤ → Option ℝ :=
  updFold (pyIdx ((points n).length : ℤ)) lonOf (points n) (fun _ => none)

/-- `compute_fib_grid(n)`: returns `(points, gpi, lon, lat)`. -/
noncomputable def computeFibGrid (n : ℤ) :
    List ℤ × List ℤ × (ℤ → Option ℝ) × (ℤ → Option ℝ) :=
  (points n, gpi n, lonArr n, latArr n)

/-- `compute_fib_grid_wgs84(n)` with the external transformer `T` abstract:
`points` and `gpi` pass through; each coordinate pair is replaced by the
transformer output (`transform` returns `(lat, lon)`). -/
noncomputable def computeFibGridWgs84 (T : ℝ → ℝ → ℝ × ℝ) (n : ℤ) :
    List ℤ × List ℤ × (ℤ → Option (ℝ × ℝ)) :=
  let r := computeFibGrid n
  (r.1, r.2.1, fun p =>
    match r.2.2.1 p, r.2.2.2 p with
    | some lo, some la => some (T lo la)
    | _, _ => none)

/- ### Embedding of realization.py control flow -/

/-- The Python exceptions that the realization control flow can raise:
`KeyError` from the `DATA_URL` lookup, the two `ValueError`s of
`read_grid_file` ("Geodatum unknown" / "Grid point sort order unknown"),
and the `ValueError("Resolution unknown")` of `FibGrid.__init__`. -/
inductive PyError where
  | keyError
  | geodatumError
  | sortOrderError
  | resolutionError
  deriving DecidableEq

/-- The keys of the module-level `DATA_URL` dictionary. -/
def DATA_URL_keys : List String :=
  ["n430000_sphere", "n430000_wgs84", "n1650000_sphere", "n1650000_wgs84",
   "n6600000_sphere", "n6600000_wgs84"]

/-- `str.lower()`: lowercase every character. -/
def strLower (s : String) : String :=
  ⟨s.data.map Char.toLower⟩

/-- The key built for the `DATA_URL` lookup: `f"n{n}_{geodatum.lower()}"`. -/
def dataUrlKey (n : ℤ) (geodatum : String) : String :=
  "n" ++ toString n ++ "_" ++ strLower geodatum

/-- The geodatum values accepted by `read_grid_file`. -/
def validGeodatums : List String :=
  ["sphere", "WGS84"]

/-- The sort orders accepted by `read_grid_file`. -/
def validSortOrders : List String :=
  ["none", "latband"]

/-- Observable effects and outcome of one `read_grid_file` /
`FibGrid.__init__` run: whether the cache path was consulted, whether the
download warning was emitted, whether `urlretrieve` executed, and the
exception raised, if any (`none` = normal return). -/
structure ReadResult where
  cacheChecked : Bool
  warned : Bool
  fetched : Bool
  raised : Option PyError
  deriving DecidableEq

/-- Control flow of `read_grid_file(n, geodatum, sort_order)`, with the cache
state abstracted to `cacheHit` (`filename.exists()`): on a miss the warning,
`mkdir`, `DATA_URL` lookup and `urlretrieve` all happen first; the geodatum
and sort-order validation runs only afterwards. -/
def readGridFileFlow (n : ℤ) (geodatum sortOrder : String) (cacheHit : Bool) :
    ReadResult :=
  if cacheHit then
    if geodatum ∉ validGeodatums then ⟨true, false, false, some .geodatumError⟩
    else if sortOrder ∉ validSortOrders then ⟨true, false, false, some .sortOrderError⟩
    else ⟨true, false, false, none⟩
  else
    if dataUrlKey n geodatum ∈ DATA_URL_keys then
      if geodatum ∉ validGeodatums then ⟨true, true, true, some .geodatumError⟩
      else if sortOrder ∉ validSortOrders then ⟨true, true, true, some .sortOrderError⟩
      else ⟨true, true, true, none⟩
    else ⟨true, true, false, some .keyError⟩

/-- The resolution dispatch of `FibGrid.__init__` / `FibLandGrid.__init__`. -/
def resToN (res : ℚ) : Except PyError ℤ :=
  if res = 6.25 then .ok 6600000
  else if res = 12.5 then .ok 1650000
  else if res = 25 then .ok 430000
  else .error .resolutionError

/-- `FibGrid.__init__(res, geodatum, sort_order)`: the resolution is mapped
to `n` before `read_grid_file` is called, so an unknown resolution raises
with no cache access, warning, or fetch. -/
def fibGridInit (res : ℚ) (geodatum sortOrder : String) (cacheHit : Bool) :
    ReadResult :=
  match resToN res with
  | .error e => ⟨false, false, false, some e⟩
  | .ok n => readGridFileFlow n geodatum sortOrder cacheHit

/-- `arr[idx]` (numpy fancy indexing) for a stored sorting array `idx`. -/
def applySort {α : Type} (idx : List ℕ) (arr : List α) (d : α) : List α :=
  idx.map (fun j => arr.getD j d)

/-- The per-point `(lon, lat, gpi)` records of a loaded grid. -/
def triples (lon lat : List ℝ) (gpiL : List ℤ) : List (ℝ × ℝ × ℤ) :=
  lon.zip (lat.zip gpiL)

/-- `np.nonzero(metadata["land_flag"])[0]` from `FibLandGrid.__init__`:
the storage positions whose land flag is set, in increasing order. -/
def landSubset (landFlag : List Bool) : List ℕ :=
  (List.range landFlag.length).filter (fun j => landFlag.getD j false)

/-- The grid-point identifiers the subset grid keeps active
(`CellGrid` restricts to `gpi[subset]`). -/
def activeGpis (landFlag : List Bool) (gpiL : List ℤ) : List ℤ :=
  (landSubset landFlag).map (fun j => gpiL.getD j 0)

/- ### Basic facts about arangeZ / points / gpi -/

theorem mem_arangeZ {a b x : ℤ} : x ∈ arangeZ a b ↔ a ≤ x ∧ x < b := by
  simp only [arangeZ, List.mem_map, List.mem_range]
  constructor
  · rintro ⟨k, hk, rfl⟩
    omega
  · intro h
    exact ⟨(x - a).toNat, by omega, by omega⟩

theorem length_arangeZ (a b : ℤ) : (arangeZ a b).length = (b - a).toNat := by
  simp [arangeZ]

theorem getElem_arangeZ (a b : ℤ) (k : ℕ) (hk : k < (arangeZ a b).length) :
    (arangeZ a b)[k] = a + k := by
  simp [arangeZ]

theorem mem_points {n i : ℤ} : i ∈ points n ↔ -n ≤ i ∧ i ≤ n := by
  rw [points, mem_arangeZ]
  omega

theorem length_points (n : ℤ) (hn : 0 < n) :
    ((points n).length : ℤ) = 2 * n + 1 := by
  rw [points, length_arangeZ]
  omega

/- ### The fill loop: closed form of the arrays -/

theorem updFold_of_forall_ne {β : Type} (key : ℤ → ℤ) (val : ℤ → β)
    (l : List ℤ) (g : ℤ → Option β) (p : ℤ) (h : ∀ i ∈ l, key i ≠ p) :
    updFold key val l g p = g p := by
  induction l generalizing g with
  | nil => rfl
  | cons x xs ih =>
    rw [updFold, List.foldl_cons, ← updFold]
    rw [ih _ (fun i hi => h i (List.mem_cons_of_mem x hi))]
    exact Function.update_noteq (fun hx => h x (List.mem_cons_self x xs) hx.symm) _ g

theorem updFold_of_mem {β : Type} (key : ℤ → ℤ) (val : ℤ → β)
    (l : List ℤ) (g : ℤ → Option β) (i : ℤ) (hi : i ∈ l)
    (hinj : ∀ a ∈ l, ∀ b ∈ l, key a = key b → a = b) :
    updFold key val l g (key i) = some (val i) := by
  induction l generalizing g with
  | nil => cases hi
  | cons x xs ih =>
    rw [updFold, List.foldl_cons, ← updFold]
    by_cases hx : i ∈ xs
    · exact ih _ hx (fun a ha b hb hab =>
        hinj a (List.mem_cons_of_mem x ha) b (List.mem_cons_of_mem x hb) hab)
    · have hix : i = x := by
        rcases List.mem_cons.mp hi with h | h
        · exact h
        · exact absurd h hx
      subst hix
      rw [updFold_of_forall_ne]
      · exact Function.update_same _ _ _
      · intro a ha hk
        exact hx (by
          have := hinj a (List.mem_cons_of_mem i ha) i (List.mem_cons_self i xs) hk
          rwa [this] at ha)

/-- `pyIdx` sends `-n..n` injectively into `0..2n` (array size `2n+1`). -/
theorem pyIdx_inj (n : ℤ) (hn : 0 < n) :
    ∀ a ∈ points n, ∀ b ∈ points n,
      pyIdx (2 * n + 1) a = pyIdx (2 * n + 1) b → a = b := by
  intro a ha b hb hab
  rw [mem_points] at ha hb
  unfold pyIdx at hab
  split_ifs at hab <;> omega

/-- On `-n..n` every `pyIdx` value lands in `0..2n`. -/
theorem pyIdx_mem_range (n i : ℤ) (hn : 0 < n) (h1 : -n ≤ i) (h2 : i ≤ n) :
    0 ≤ pyIdx (2 * n + 1) i ∧ pyIdx (2 * n + 1) i ≤ 2 * n := by
  unfold pyIdx
  split_ifs <;> omega

/-- Every position `0..2n` is hit by exactly one signed index. -/
theorem pyIdx_bij (n p : ℤ) (hn : 0 < n) (hp0 : 0 ≤ p) (hp1 : p ≤ 2 * n) :
    ∃! i, i ∈ points n ∧ pyIdx (2 * n + 1) i = p := by
  refine ⟨if p ≤ n then p else p - (2 * n + 1), ⟨?_, ?_⟩, ?_⟩
  · rw [mem_points]
    split_ifs <;> omega
  · unfold pyIdx
    split_ifs <;> omega
  · intro j hj
    obtain ⟨hjm, hjp⟩ := hj
    rw [mem_points] at hjm
    unfold pyIdx at hjp
    split_ifs at hjp <;> split_ifs <;> omega

/-- Closed form of the stored latitude: signed index `i` lands at array
position `pyIdx (2n+1) i`, carrying `latOf n i`. -/
theorem latArr_eq (n i : ℤ) (hn : 0 < n) (h1 : -n ≤ i) (h2 : i ≤ n) :
    latArr n (pyIdx (2 * n + 1) i) = some (latOf n i) := by
  have hlen : ((points n).length : ℤ) = 2 * n + 1 := length_points n hn
  rw [latArr, hlen]
  exact updFold_of_mem _ _ _ _ i (mem_points.mpr ⟨h1, h2⟩) (pyIdx_inj n hn)

/-- Closed form of the stored longitude. -/
theorem lonArr_eq (n i : ℤ) (hn : 0 < n) (h1 : -n ≤ i) (h2 : i ≤ n) :
    lonArr n (pyIdx (2 * n + 1) i) = some (lonOf i) := by
  have hlen : ((points n).length : ℤ) = 2 * n + 1 := length_points n hn
  rw [lonArr, hlen]
  exact updFold_of_mem _ _ _ _ i (mem_points.mpr ⟨h1, h2⟩) (pyIdx_inj n hn)

/- ### Real-number bounds -/

theorem phi_pos : 0 < phi := by
  unfold phi
  positivity

theorem rmod_eq_mul_fract (x y : ℝ) (hy : y ≠ 0) :
    rmod x y = y * Int.fract (x / y) := by
  rw [rmod, Int.fract]
  field_simp

theorem rmod_nonneg (x y : ℝ) (hy : 0 < y) : 0 ≤ rmod x y := by
  rw [rmod_eq_mul_fract x y hy.ne.symm]
  exact mul_nonneg hy.le (Int.fract_nonneg _)

theorem rmod_lt (x y : ℝ) (hy : 0 < y) : rmod x y < y := by
  rw [rmod_eq_mul_fract x y hy.ne.symm]
  calc y * Int.fract (x / y) < y * 1 :=
        (mul_lt_mul_left hy).mpr (Int.fract_lt_one _)
    _ = y := mul_one y

theorem rawLon_nonneg (i : ℤ) : 0 ≤ rawLon i := by
  rw [rawLon]
  have h1 : (0 : ℝ) ≤ rmod (i : ℝ) phi := rmod_nonneg _ _ phi_pos
  exact div_nonneg (mul_nonneg h1 (by norm_num)) phi_pos.le

theorem rawLon_lt (i : ℤ) : rawLon i < 360 := by
  rw [rawLon, div_lt_iff phi_pos]
  have h1 : rmod (i : ℝ) phi < phi := rmod_lt _ _ phi_pos
  nlinarith [phi_pos]

/-- The first wrap branch (`lon[i] < -180`) never fires on a raw longitude. -/
theorem wrapLon_eq_of_nonneg (l : ℝ) (h : 0 ≤ l) :
    wrapLon l = if 180 < l then l - 360 else l := by
  rw [wrapLon]
  have hnot : ¬ l < -180 := by linarith
  simp only [if_neg hnot]

theorem lonOf_mem (i : ℤ) : -180 < lonOf i ∧ lonOf i ≤ 180 := by
  rw [lonOf, wrapLon_eq_of_nonneg _ (rawLon_nonneg i)]
  have h0 := rawLon_nonneg i
  have h1 := rawLon_lt i
  split_ifs with h <;> constructor <;> linarith

theorem latOf_mem (n i : ℤ) : -90 ≤ latOf n i ∧ latOf n i ≤ 90 := by
  have hpi := Real.pi_pos
  have h1 := Real.arcsin_le_pi_div_two ((2 * (i : ℝ)) / (2 * (n : ℝ) + 1))
  have h2 := Real.neg_pi_div_two_le_arcsin ((2 * (i : ℝ)) / (2 * (n : ℝ) + 1))
  rw [latOf]
  constructor
  · rw [le_div_iff hpi]
    nlinarith
  · rw [div_le_iff hpi]
    nlinarith

/- ### Concrete latitude values for n = 1 -/

theorem latOf_one_zero : latOf 1 0 = 0 := by
  rw [latOf]
  norm_num [Real.arcsin_zero]

theorem latOf_one_negone_neg : latOf 1 (-1) < 0 := by
  rw [latOf]
  have h : ((2 : ℝ) * (((-1 : ℤ) : ℝ))) / (2 * ((1 : ℤ) : ℝ) + 1) = -(2 / 3) := by
    norm_num
  rw [h, Real.arcsin_neg]
  have h2 : 0 < Real.arcsin (2 / 3) := Real.arcsin_pos.mpr (by norm_num)
  have hpi := Real.pi_pos
  apply div_neg_of_neg_of_pos _ hpi
  nlinarith

/- ### List helpers for the permutation and subset claims -/

theorem map_getD_range {α : Type} (l : List α) (d : α) :
    (List.range l.length).map (fun j => l.getD j d) = l := by
  induction l with
  | nil => rfl
  | cons a t ih =>
    rw [List.length_cons, List.range_succ_eq_map, List.map_cons, List.map_map]
    simp only [Function.comp_def, List.getD_cons_zero, List.getD_cons_succ]
    rw [ih]

theorem applySort_perm {α : Type} (N : ℕ) (idx : List ℕ) (arr : List α) (d : α)
    (hperm : idx.Perm (List.range N)) (hlen : arr.length = N) :
    (applySort idx arr d).Perm arr := by
  have h1 : (List.range N).map (fun j => arr.getD j d) = arr := by
    rw [← hlen]
    exact map_getD_range arr d
  have hp : (idx.map (fun j => arr.getD j d)).Perm
      ((List.range N).map (fun j => arr.getD j d)) := hperm.map _
  rw [h1] at hp
  exact hp

theorem triples_applySort (idx : List ℕ) (lon lat : List ℝ) (gpiL : List ℤ) :
    triples (applySort idx lon 0) (applySort idx lat 0) (applySort idx gpiL 0)
      = idx.map (fun j => (lon.getD j 0, lat.getD j 0, gpiL.getD j 0)) := by
  rw [triples, applySort, applySort, applySort, List.zip_map', List.zip_map']

theorem triples_eq_map_range (lon lat : List ℝ) (gpiL : List ℤ) (N : ℕ)
    (hlon : lon.length = N) (hlat : lat.length = N) (hgpi : gpiL.length = N) :
    triples lon lat gpiL =
      (List.range N).map (fun j => (lon.getD j 0, lat.getD j 0, gpiL.getD j 0)) := by
  have h1 : (List.range N).map (fun j => lon.getD j 0) = lon := by
    rw [← hlon]
    exact map_getD_range lon 0
  have h2 : (List.range N).map (fun j => lat.getD j 0) = lat := by
    rw [← hlat]
    exact map_getD_range lat 0
  have h3 : (List.range N).map (fun j => gpiL.getD j 0) = gpiL := by
    rw [← hgpi]
    exact map_getD_range gpiL 0
  calc triples lon lat gpiL
      = triples ((List.range N).map (fun j => lon.getD j 0))
          ((List.range N).map (fun j => lat.getD j 0))
          ((List.range N).map (fun j => gpiL.getD j 0)) := by rw [h1, h2, h3]
    _ = (List.range N).map (fun j => (lon.getD j 0, lat.getD j 0, gpiL.getD j 0)) := by
        rw [triples, List.zip_map', List.zip_map']

theorem landSubset_length (l : List Bool) :
    (landSubset l).length = l.count true := by
  rw [landSubset]
  induction l with
  | nil => rfl
  | cons a t ih =>
    have hcomp : ((fun j => (a :: t).getD j false) ∘ Nat.succ) =
        (fun j => t.getD j false) := by
      funext j
      show (a :: t).getD (j + 1) false = t.getD j false
      rw [List.getD_cons_succ]
    rw [List.length_cons, List.range_succ_eq_map, List.filter_cons, List.filter_map, hcomp,
      List.getD_cons_zero]
    cases a
    · rw [if_neg (by simp), List.length_map, ih, List.count_cons]
      simp
    · rw [if_pos rfl, List.length_cons, List.length_map, ih, List.count_cons]
      simp

/- ### Claim theorems -/

/-- Claim C1, counterexample: the claim places signed index `i` at grid point
index `i + n`; but at `n = 1` the array slot at grid point index `0` holds
latitude `0` (written by the iteration `i = 0`, since `lat[0]` is position
`0`), not the claimed `arcsin(-2/3)·180/π ≈ -41.81` of signed index `-1`. -/
theorem fib_lattice_position_counterexample :
    latArr 1 0 = some (latOf 1 0) ∧ latOf 1 0 = 0 ∧ latOf 1 (-1) < 0 ∧
    latArr 1 0 ≠ some (latOf 1 (-1)) := by
  have hp : pyIdx (2 * 1 + 1) 0 = 0 := by norm_num [pyIdx]
  have h0 : latArr 1 0 = some (latOf 1 0) := by
    have h := latArr_eq 1 0 one_pos (by norm_num) (by norm_num)
    rwa [hp] at h
  refine ⟨h0, latOf_one_zero, latOf_one_negone_neg, ?_⟩
  rw [h0, latOf_one_zero]
  intro hcontra
  have heq := Option.some.inj hcontra
  have h2 := latOf_one_negone_neg
  rw [← heq] at h2
  exact lt_irrefl 0 h2

/-- Claim C1, amended: for `n > 0` and signed index `i ∈ [-n, n]`, the fill
loop stores `latOf n i` and `lonOf i` at array position `pyIdx (2n+1) i` —
that is, position `i` for `i ≥ 0` and position `2n+1+i` for `i < 0` (numpy
negative indexing) — not at grid point index `i + n`. -/
theorem fib_lattice_positions_amended (n i : ℤ) (hn : 0 < n)
    (h1 : -n ≤ i) (h2 : i ≤ n) :
    latArr n (pyIdx (2 * n + 1) i) = some (latOf n i) ∧
    lonArr n (pyIdx (2 * n + 1) i) = some (lonOf i) ∧
    (0 ≤ i → pyIdx (2 * n + 1) i = i) ∧
    (i < 0 → pyIdx (2 * n + 1) i = 2 * n + 1 + i) := by
  refine ⟨latArr_eq n i hn h1 h2, lonArr_eq n i hn h1 h2, ?_, ?_⟩ <;>
    (intro h; unfold pyIdx; split_ifs <;> omega)

/-- Witness for the amended claim C1 at `n = 1`, `i = 0`. -/
theorem fib_lattice_positions_amended_witness :
    latArr 1 (pyIdx (2 * 1 + 1) 0) = some (latOf 1 0) ∧
    lonArr 1 (pyIdx (2 * 1 + 1) 0) = some (lonOf 0) ∧
    ((0 : ℤ) ≤ 0 → pyIdx (2 * 1 + 1) 0 = 0) ∧
    ((0 : ℤ) < 0 → pyIdx (2 * 1 + 1) 0 = 2 * 1 + 1 + 0) :=
  fib_lattice_positions_amended 1 0 (by norm_num) (by norm_num) (by norm_num)

/-- Claim C2: `compute_fib_grid n` builds `2n+1` points; the signed-index
array is exactly `-n..n` in increasing order, the grid point index array is
exactly `0..2n` in order, and `gpi = points + n` pointwise. -/
theorem lattice_index_arrays (n : ℤ) (hn : 0 < n) :
    ((points n).length : ℤ) = 2 * n + 1 ∧
    (gpi n).length = (points n).length ∧
    (∀ (k : ℕ) (hk : k < (points n).length), (points n)[k] = -n + k) ∧
    (∀ (k : ℕ) (hk : k < (gpi n).length), (gpi n)[k] = (k : ℤ)) ∧
    gpi n = (points n).map (fun i => i + n) := by
  have hlen : ((points n).length : ℤ) = 2 * n + 1 := length_points n hn
  have hglen : (gpi n).length = (points n).length := by
    rw [gpi, length_arangeZ]
    omega
  have hpget : ∀ (k : ℕ) (hk : k < (points n).length), (points n)[k] = -n + k := by
    intro k hk
    simp only [points] at hk ⊢
    rw [getElem_arangeZ]
  have hgget : ∀ (k : ℕ) (hk : k < (gpi n).length), (gpi n)[k] = (k : ℤ) := by
    intro k hk
    simp only [gpi] at hk ⊢
    rw [getElem_arangeZ]
    ring
  refine ⟨hlen, hglen, hpget, hgget, ?_⟩
  apply List.ext_getElem
  · rw [hglen, List.length_map]
  · intro k hk1 hk2
    rw [List.getElem_map, hgget k hk1, hpget k (by rwa [List.length_map] at hk2)]
    ring

/-- Witness for claim C2 at `n = 1`. -/
theorem lattice_index_arrays_witness :
    ((points 1).length : ℤ) = 2 * 1 + 1 ∧
    (gpi 1).length = (points 1).length ∧
    gpi 1 = (points 1).map (fun i => i + 1) :=
  ⟨(lattice_index_arrays 1 one_pos).1, (lattice_index_arrays 1 one_pos).2.1,
   (lattice_index_arrays 1 one_pos).2.2.2.2⟩

/-- Claim C3: each stored latitude lies in `[-90, 90]`, each stored longitude
lies in `(-180, 180]`, the raw longitude lies in `[0, 360)` for every signed
index (floor-based real modulo), and hence the `+360` wrap branch for values
below `-180` is never taken. -/
theorem lattice_coordinate_bounds (n i : ℤ) (hn : 0 < n)
    (h1 : -n ≤ i) (h2 : i ≤ n) :
    (-90 ≤ latOf n i ∧ latOf n i ≤ 90) ∧
    (-180 < lonOf i ∧ lonOf i ≤ 180) ∧
    (0 ≤ rawLon i ∧ rawLon i < 360) ∧
    wrapLon (rawLon i) = if 180 < rawLon i then rawLon i - 360 else rawLon i :=
  ⟨latOf_mem n i, lonOf_mem i, ⟨rawLon_nonneg i, rawLon_lt i⟩,
   wrapLon_eq_of_nonneg _ (rawLon_nonneg i)⟩

/-- Witness for claim C3 at `n = 1`, `i = 1`. -/
theorem lattice_coordinate_bounds_witness :
    (-90 ≤ latOf 1 1 ∧ latOf 1 1 ≤ 90) ∧
    (-180 < lonOf 1 ∧ lonOf 1 ≤ 180) ∧
    (0 ≤ rawLon 1 ∧ rawLon 1 < 360) ∧
    wrapLon (rawLon 1) = if 180 < rawLon 1 then rawLon 1 - 360 else rawLon 1 :=
  lattice_coordinate_bounds 1 1 one_pos (by norm_num) (by norm_num)

/-- Claim C4: over `i ∈ -n..n` the numpy index map `i ↦ (i if i ≥ 0 else
2n+1+i)` keeps every write of the fill loop in bounds `0..2n`, hits every
slot exactly once, and leaves no slot of the `np.empty` arrays unwritten. -/
theorem fill_loop_bijection (n : ℤ) (hn : 1 ≤ n) :
    (∀ i ∈ points n, 0 ≤ pyIdx (2 * n + 1) i ∧ pyIdx (2 * n + 1) i ≤ 2 * n) ∧
    (∀ p : ℤ, 0 ≤ p → p ≤ 2 * n →
      ∃! i, i ∈ points n ∧ pyIdx (2 * n + 1) i = p) ∧
    (∀ p : ℤ, 0 ≤ p → p ≤ 2 * n → latArr n p ≠ none ∧ lonArr n p ≠ none) := by
  have hn' : 0 < n := hn
  refine ⟨?_, ?_, ?_⟩
  · intro i hi
    rw [mem_points] at hi
    exact pyIdx_mem_range n i hn' hi.1 hi.2
  · intro p hp0 hp1
    exact pyIdx_bij n p hn' hp0 hp1
  · intro p hp0 hp1
    obtain ⟨i, ⟨him, hip⟩, -⟩ := pyIdx_bij n p hn' hp0 hp1
    rw [mem_points] at him
    constructor
    · rw [← hip, latArr_eq n i hn' him.1 him.2]
      exact Option.some_ne_none _
    · rw [← hip, lonArr_eq n i hn' him.1 him.2]
      exact Option.some_ne_none _

/-- Witness for claim C4 at `n = 1`, `i = 0`. -/
theorem fill_loop_bijection_witness :
    0 ≤ pyIdx (2 * 1 + 1) 0 ∧ pyIdx (2 * 1 + 1) 0 ≤ 2 * 1 :=
  (fill_loop_bijection 1 le_rfl).1 0 (by decide)

/-- Claim C5, counterexample: `compute_fib_grid_wgs84` performs no input
validation; at `n = 0` it returns normally with the single point `[0]`
rather than failing. -/
theorem wgs84_no_validation_counterexample :
    (computeFibGridWgs84 (fun a b => (a, b)) 0).1 = [0] ∧
    (computeFibGridWgs84 (fun a b => (a, b)) 0).1.length = 1 := by
  constructor
  · show points 0 = [0]
    decide
  · show (points 0).length = 1
    decide

/-- Claim C5, amended: `compute_fib_grid_wgs84` never raises on any `n`: it
returns `max (2n+1) 0` points (`2n+1` for `n > 0`, one point for `n = 0`,
none for `n < 0`), passing the sphere pass's `points` array through. -/
theorem wgs84_point_count_amended (T : ℝ → ℝ → ℝ × ℝ) (n : ℤ) :
    (computeFibGridWgs84 T n).1 = points n ∧
    ((computeFibGridWgs84 T n).1.length : ℤ) = max (2 * n + 1) 0 := by
  constructor
  · rfl
  · show ((points n).length : ℤ) = max (2 * n + 1) 0
    rw [points, length_arangeZ]
    omega

/-- Claim C6, counterexample: with a cache miss, an invalid sort order still
triggers the full download before `ValueError`, and an invalid geodatum dies
on the `DATA_URL` key lookup (a `KeyError`, not the geodatum `ValueError`)
after the warning — validation does not precede the fetch. -/
theorem validation_after_download_counterexample :
    readGridFileFlow 430000 "WGS84" "badorder" false =
      ⟨true, true, true, some .sortOrderError⟩ ∧
    readGridFileFlow 430000 "badgeo" "none" false =
      ⟨true, true, false, some .keyError⟩ := by
  constructor <;> decide

/-- Claim C6, amended: `read_grid_file` validates `geodatum` and `sort_order`
only after the cache check and any download: with a cached file no fetch
happens and invalid values raise the respective `ValueError`; with a cache
miss the warning and fetch come first, an invalid sort order downloads and
then raises, and an unknown `DATA_URL` key (as from an invalid geodatum)
raises `KeyError` before `urlretrieve`. -/
theorem read_grid_file_validation_order_amended (n : ℤ) (g s : String) :
    ((readGridFileFlow n g s true).fetched = false ∧
      (readGridFileFlow n g s true).warned = false) ∧
    (g ∉ validGeodatums →
      (readGridFileFlow n g s true).raised = some .geodatumError) ∧
    (g ∈ validGeodatums → s ∉ validSortOrders →
      (readGridFileFlow n g s true).raised = some .sortOrderError) ∧
    (dataUrlKey n g ∈ DATA_URL_keys →
      (readGridFileFlow n g s false).fetched = true ∧
      (readGridFileFlow n g s false).warned = true) ∧
    (dataUrlKey n g ∉ DATA_URL_keys →
      (readGridFileFlow n g s false).fetched = false ∧
      (readGridFileFlow n g s false).raised = some .keyError) := by
  refine ⟨?_, ?_, ?_, ?_, ?_⟩
  · rw [readGridFileFlow, if_pos rfl]
    split_ifs <;> exact ⟨rfl, rfl⟩
  · intro hg
    rw [readGridFileFlow, if_pos rfl, if_pos hg]
  · intro hg hs
    rw [readGridFileFlow, if_pos rfl, if_neg (fun hcon => hcon hg), if_pos hs]
  · intro hk
    rw [readGridFileFlow, if_neg Bool.false_ne_true, if_pos hk]
    split_ifs <;> exact ⟨rfl, rfl⟩
  · intro hk
    rw [readGridFileFlow, if_neg Bool.false_ne_true, if_neg hk]
    exact ⟨rfl, rfl⟩

/-- Witness for the amended claim C6: unknown geodatum with a cache miss. -/
theorem read_grid_file_validation_order_amended_witness :
    (readGridFileFlow 430000 "badgeo" "none" false).fetched = false ∧
    (readGridFileFlow 430000 "badgeo" "none" false).raised = some .keyError :=
  (read_grid_file_validation_order_amended 430000 "badgeo" "none").2.2.2.2 (by decide)

/-- Claim C7: `FibGrid.__init__` maps resolutions `6.25/12.5/25` to point
counts `6600000/1650000/430000`, and any other resolution raises
`ValueError("Resolution unknown")` before any cache access, warning, or
fetch. -/
theorem resolution_mapping (res : ℚ) (g s : String) (c : Bool) :
    resToN 6.25 = .ok 6600000 ∧ resToN 12.5 = .ok 1650000 ∧
    resToN 25 = .ok 430000 ∧
    (res ≠ 6.25 → res ≠ 12.5 → res ≠ 25 →
      fibGridInit res g s c = ⟨false, false, false, some .resolutionError⟩) := by
  refine ⟨?_, ?_, ?_, ?_⟩
  · rw [resToN, if_pos rfl]
  · rw [resToN, if_neg (by norm_num), if_pos rfl]
  · rw [resToN, if_neg (by norm_num), if_neg (by norm_num), if_pos rfl]
  · intro h1 h2 h3
    simp only [fibGridInit, resToN, if_neg h1, if_neg h2, if_neg h3]

/-- Witness for claim C7: resolution 50 raises with no I/O. -/
theorem resolution_mapping_witness :
    fibGridInit 50 "WGS84" "none" true =
      ⟨false, false, false, some .resolutionError⟩ :=
  (resolution_mapping 50 "WGS84" "none" true).2.2.2
    (by norm_num) (by norm_num) (by norm_num)

/-- Claim C8: when the stored sorting array is a permutation of `0..N-1`,
applying it identically to all arrays preserves the multiset of
`(lon, lat, gpi)` records and permutes each further field by the same index
sequence; only storage order changes. -/
theorem sort_permutation_preserves_triples (N : ℕ) (idx : List ℕ)
    (lon lat : List ℝ) (cell gpiL : List ℤ) (meta : List ℝ)
    (hperm : idx.Perm (List.range N))
    (hlon : lon.length = N) (hlat : lat.length = N) (hgpi : gpiL.length = N)
    (hcell : cell.length = N) (hmeta : meta.length = N) :
    (triples (applySort idx lon 0) (applySort idx lat 0)
        (applySort idx gpiL 0)).Perm (triples lon lat gpiL) ∧
    (applySort idx cell 0).Perm cell ∧
    (applySort idx meta 0).Perm meta := by
  refine ⟨?_, applySort_perm N idx cell 0 hperm hcell,
    applySort_perm N idx meta 0 hperm hmeta⟩
  rw [triples_applySort, triples_eq_map_range lon lat gpiL N hlon hlat hgpi]
  exact hperm.map _

/-- Witness for claim C8 on a concrete three-point grid. -/
theorem sort_permutation_preserves_triples_witness :
    (triples (applySort [2, 0, 1] ([10, 20, 30] : List ℝ) 0)
        (applySort [2, 0, 1] ([1, 2, 3] : List ℝ) 0)
        (applySort [2, 0, 1] ([7, 8, 9] : List ℤ) 0)).Perm
      (triples ([10, 20, 30] : List ℝ) ([1, 2, 3] : List ℝ)
        ([7, 8, 9] : List ℤ)) ∧
    (applySort [2, 0, 1] ([4, 5, 6] : List ℤ) 0).Perm [4, 5, 6] ∧
    (applySort [2, 0, 1] ([11, 12, 13] : List ℝ) 0).Perm [11, 12, 13] :=
  sort_permutation_preserves_triples 3 [2, 0, 1] [10, 20, 30] [1, 2, 3]
    [4, 5, 6] [7, 8, 9] [11, 12, 13] (by decide) rfl rfl rfl rfl rfl

/-- Claim C9: the land subset keeps exactly the storage positions with a set
land flag: its size is the number of set flags, every kept position has its
flag set, and the retained grid point identifiers are the original `gpi`
values without renumbering (a sublist of the full `gpi` array). -/
theorem land_subset_properties (landFlag : List Bool) (gpiL : List ℤ)
    (hlen : landFlag.length = gpiL.length) :
    (landSubset landFlag).length = landFlag.count true ∧
    (∀ j ∈ landSubset landFlag,
      j < landFlag.length ∧ landFlag.getD j false = true) ∧
    (activeGpis landFlag gpiL).Sublist gpiL ∧
    (activeGpis landFlag gpiL).length = landFlag.count true := by
  have hcount : (landSubset landFlag).length = landFlag.count true :=
    landSubset_length _
  refine ⟨hcount, ?_, ?_, ?_⟩
  · intro j hj
    rw [landSubset, List.mem_filter] at hj
    exact ⟨List.mem_range.mp hj.1, hj.2⟩
  · have hsub : (landSubset landFlag).Sublist (List.range gpiL.length) := by
      rw [landSubset, hlen]
      exact List.filter_sublist _
    have hmap := hsub.map (fun j => gpiL.getD j 0)
    rw [activeGpis]
    rwa [map_getD_range gpiL 0] at hmap
  · rw [activeGpis, List.length_map]
    exact hcount

/-- Witness for claim C9 on a concrete flag/gpi pair. -/
theorem land_subset_properties_witness :
    (landSubset [true, false, true]).length =
      ([true, false, true] : List Bool).count true ∧
    (activeGpis [true, false, true] [5, 6, 7]).Sublist [5, 6, 7] :=
  ⟨(land_subset_properties [true, false, true] [5, 6, 7] rfl).1,
   (land_subset_properties [true, false, true] [5, 6, 7] rfl).2.2.1⟩

/-- Claim C10: `compute_fib_grid_wgs84` passes the `points` and `gpi` arrays
of the sphere pass through unchanged, whatever the external transformer does;
only the coordinate values are replaced. -/
theorem wgs84_preserves_indices (T : ℝ → ℝ → ℝ × ℝ) (n : ℤ) (hn : 0 < n) :
    (computeFibGridWgs84 T n).1 = (computeFibGrid n).1 ∧
    (computeFibGridWgs84 T n).2.1 = (computeFibGrid n).2.1 :=
  ⟨rfl, rfl⟩

/-- Witness for claim C10 at `n = 1` with a concrete transformer. -/
theorem wgs84_preserves_indices_witness :
    (computeFibGridWgs84 (fun a b => (b, a)) 1).1 = (computeFibGrid 1).1 ∧
    (computeFibGridWgs84 (fun a b => (b, a)) 1).2.1 = (computeFibGrid 1).2.1 :=
  wgs84_preserves_indices (fun a b => (b, a)) 1 one_pos

end Fibgrid
